import Mathlib

/-!
Verification development for the Woven-Core frame execution and GPU resource
synchronization engine (GraphicsSystem / ShaderSystem).

The definitions below are shallow embeddings of the C++ source:
`GraphicsSystem::BeginFrame`, `GraphicsSystem::EndFrame`,
`GraphicsSystem::CreateSwapchain`, `GraphicsSystem::RecreateSwapchain`,
`GraphicsSystem::HandleResize`, `GraphicsSystem::TransitionImage`,
`GraphicsSystem::RecordSwapchainClear`, the layout-tracking accessors in
GraphicsSystem.hpp, `GraphicsSystem::CreateBindlessDescriptors`, and
`ShaderSystem::CompileToSpirv` / `ShaderSystem::CreateShaderObject`.

Results of device calls (Vulkan return codes, window sizes) are supplied
through explicit environment records; engine state mutated by the source is
threaded explicitly through a `GraphicsState` record.
-/

/-- Mirrors `MAX_FRAMES_IN_FLIGHT = 2` in GraphicsSystem.hpp. -/
def maxFramesInFlight : Nat := 2

/-- Numeric value of `VK_FORMAT_B8G8R8A8_UNORM`. -/
def vkFormatB8G8R8A8Unorm : Nat := 44

/-- Numeric value of `VK_FORMAT_B8G8R8A8_SRGB`. -/
def vkFormatB8G8R8A8Srgb : Nat := 50

/-- Numeric value of `VK_COLOR_SPACE_SRGB_NONLINEAR_KHR`. -/
def vkColorSpaceSrgbNonlinear : Nat := 0

/-- Numeric value of `VK_PRESENT_MODE_IMMEDIATE_KHR`. -/
def vkPresentModeImmediate : Nat := 0

/-- Numeric value of `VK_PRESENT_MODE_MAILBOX_KHR`. -/
def vkPresentModeMailbox : Nat := 1

/-- Numeric value of `VK_PRESENT_MODE_FIFO_KHR`. -/
def vkPresentModeFifo : Nat := 2

/-- `UINT32_MAX`, the sentinel in `VkSurfaceCapabilitiesKHR::currentExtent`. -/
def uint32Sentinel : Nat := 4294967295

/-- `kSpirvMagic = 0x07230203` from ShaderSystem.cpp. -/
def kSpirvMagic : Nat := 119734787

/-- Numeric value of `VK_DESCRIPTOR_TYPE_SAMPLER`. -/
def vkDescriptorTypeSampler : Nat := 0

/-- Numeric value of `VK_DESCRIPTOR_TYPE_SAMPLED_IMAGE`. -/
def vkDescriptorTypeSampledImage : Nat := 2

/-- Numeric value of `VK_DESCRIPTOR_TYPE_STORAGE_IMAGE`. -/
def vkDescriptorTypeStorageImage : Nat := 3

/-- Numeric value of `VK_DESCRIPTOR_TYPE_UNIFORM_BUFFER`. -/
def vkDescriptorTypeUniformBuffer : Nat := 6

/-- Numeric value of `VK_DESCRIPTOR_TYPE_STORAGE_BUFFER`. -/
def vkDescriptorTypeStorageBuffer : Nat := 7

/-- `VkExtent2D`. -/
structure Extent2D where
  width : Nat
  height : Nat
deriving DecidableEq, Repr

/-- `VkSurfaceFormatKHR`: a format code and a color-space code. -/
structure SurfaceFormat where
  format : Nat
  colorSpace : Nat
deriving DecidableEq, Repr

/-- The fields of `VkSurfaceCapabilitiesKHR` read by `CreateSwapchain`. -/
structure SurfaceCaps where
  minImageCount : Nat
  maxImageCount : Nat
  currentExtent : Extent2D
  minImageExtent : Extent2D
  maxImageExtent : Extent2D
deriving DecidableEq, Repr

/-- The image layouts the engine transitions between (`VkImageLayout`). -/
inductive ImageLayout
  | undefined
  | colorAttachmentOptimal
  | depthAttachmentOptimal
  | transferSrcOptimal
  | transferDstOptimal
  | presentSrc
  | general
deriving DecidableEq, Repr

/-- One `VkImageMemoryBarrier2` as filled in by `TransitionImage`. -/
structure Barrier where
  image : Nat
  oldLayout : ImageLayout
  newLayout : ImageLayout
  srcStage : Nat
  srcAccess : Nat
  dstStage : Nat
  dstAccess : Nat
  aspectMask : Nat
deriving DecidableEq, Repr

/-- Per-frame resources (`FrameData`): whether the `renderFence` exists
(non-null), whether that fence is currently in the signaled state, and
whether `commandBuffer` is non-null. -/
structure FrameSlot where
  fencePresent : Bool
  fenceSignaled : Bool
  commandBufferValid : Bool
deriving DecidableEq, Repr

/-- Default slot used only as the out-of-range fallback of `List.getD`. -/
def defaultFrameSlot : FrameSlot :=
  { fencePresent := false, fenceSignaled := false, commandBufferValid := false }

/-- The `GraphicsSystem` member state these claims are about.  `presentMode`
and `requestedImageCount` record the values the source places in
`VkSwapchainCreateInfoKHR` for the currently built chain (the source keeps
them only inside the create-info passed to `vkCreateSwapchainKHR`); the other
fields are direct counterparts of members of `GraphicsSystem`. -/
structure GraphicsState where
  currentFrameIndex : Nat
  frames : List FrameSlot
  swapchainOutOfDate : Bool
  framebufferResized : Bool
  swapchainImageLayouts : List ImageLayout
  depthImageLayout : ImageLayout
  hdrImageLayout : ImageLayout
  swapchainExtent : Extent2D
  swapchainFormat : Nat
  presentMode : Nat
  requestedImageCount : Nat
deriving DecidableEq, Repr

/-- Result of `vkAcquireNextImageKHR` as far as `BeginFrame` distinguishes it. -/
inductive AcquireResult
  | success
  | suboptimal
  | outOfDate
  | errOther
deriving DecidableEq, Repr

/-- Result of `vkQueuePresentKHR` as far as `EndFrame` distinguishes it. -/
inductive PresentResult
  | success
  | suboptimal
  | outOfDate
  | errOther
deriving DecidableEq, Repr

/-- Environment for one `CreateSwapchain` call: what the surface, the window
and the device report. -/
structure SwapchainEnv where
  caps : SurfaceCaps
  formats : List SurfaceFormat
  presentModes : List Nat
  windowSize : Extent2D
  createOk : Bool
  deviceImageCount : Nat
  viewsOk : Bool
deriving DecidableEq, Repr

/-- Environment for one `RecreateSwapchain` call. -/
structure RecreateEnv where
  swapEnv : SwapchainEnv
  depthOk : Bool
  hdrOk : Bool
deriving DecidableEq, Repr

/-- Environment for one `BeginFrame` call. -/
structure BeginFrameEnv where
  recreate : RecreateEnv
  waitFenceOk : Bool
  resetFenceOk : Bool
  acquire : AcquireResult
  acquiredIndex : Nat
  beginCmdOk : Bool
deriving DecidableEq, Repr

/-- Environment for one `EndFrame` call. -/
structure EndFrameEnv where
  endCmdOk : Bool
  submitOk : Bool
  present : PresentResult
deriving DecidableEq, Repr

/-- The device calls `BeginFrame` performs, in program order.  Slot-indexed
actions carry the frame-slot index they were issued for. -/
inductive FrameAction
  | recreated
  | waitedFence (slot : Nat)
  | resetFenceCall (slot : Nat)
  | acquired
  | cbReset (slot : Nat)
  | cbBegan (slot : Nat)
deriving DecidableEq, Repr

/-- The frame-slot index an action operates on, if any. -/
def FrameAction.slotIndex : FrameAction → Option Nat
  | .recreated => none
  | .waitedFence i => some i
  | .resetFenceCall i => some i
  | .acquired => none
  | .cbReset i => some i
  | .cbBegan i => some i

/-- `std::clamp(v, lo, hi)`. -/
def clampNat (v lo hi : Nat) : Nat :=
  if v < lo then lo else if hi < v then hi else v

/-- Does a surface format match the preferred gamma-correct pick
(`VK_FORMAT_B8G8R8A8_SRGB` + `VK_COLOR_SPACE_SRGB_NONLINEAR_KHR`)? -/
def isSrgbPick (f : SurfaceFormat) : Bool :=
  f.format == vkFormatB8G8R8A8Srgb && f.colorSpace == vkColorSpaceSrgbNonlinear

/-- Does a surface format match the UNORM fallback pick in the same loop? -/
def isUnormPick (f : SurfaceFormat) : Bool :=
  f.format == vkFormatB8G8R8A8Unorm && f.colorSpace == vkColorSpaceSrgbNonlinear

/-- The format-selection loop of `CreateSwapchain` (part_005 lines 599-613):
`selectedFormat` starts as `surfaceFormats[0]`; an SRGB match is taken and the
loop breaks; a UNORM match replaces the selection and the loop continues. -/
def chooseFormatLoop (sel : SurfaceFormat) : List SurfaceFormat → SurfaceFormat
  | [] => sel
  | f :: fs =>
      if isSrgbPick f then f
      else chooseFormatLoop (if isUnormPick f then f else sel) fs

/-- The present-mode loop of `CreateSwapchain` (lines 623-637): start from
FIFO, take MAILBOX and break, remember IMMEDIATE and continue. -/
def choosePresentModeLoop (sel : Nat) : List Nat → Nat
  | [] => sel
  | m :: ms =>
      if m == vkPresentModeMailbox then m
      else choosePresentModeLoop (if m == vkPresentModeImmediate then m else sel) ms

/-- Present-mode selection of `CreateSwapchain`. -/
def choosePresentMode (modes : List Nat) : Nat :=
  choosePresentModeLoop vkPresentModeFifo modes

/-- Extent selection of `CreateSwapchain` (lines 640-657): take
`caps.currentExtent` unless its width is the `UINT32_MAX` sentinel, otherwise
clamp the SDL window size to the surface bounds. -/
def chooseSwapExtent (caps : SurfaceCaps) (window : Extent2D) : Extent2D :=
  if caps.currentExtent.width ≠ uint32Sentinel then caps.currentExtent
  else
    { width := clampNat window.width caps.minImageExtent.width caps.maxImageExtent.width,
      height := clampNat window.height caps.minImageExtent.height caps.maxImageExtent.height }

/-- Image-count selection of `CreateSwapchain` (lines 660-664):
`minImageCount + 1`, clamped down to `maxImageCount` when that is nonzero. -/
def chooseImageCount (caps : SurfaceCaps) : Nat :=
  let c := caps.minImageCount + 1
  if caps.maxImageCount > 0 ∧ c > caps.maxImageCount then caps.maxImageCount else c

/-- `GraphicsSystem::CreateSwapchain` (part_005 lines 581-741).  Returns the
source's `bool` together with the resulting member state.  The source indexes
`surfaceFormats[0]` unconditionally, so an empty format list is outside its
domain and modelled as failure.  On success the per-image layout vector is
assigned `VK_IMAGE_LAYOUT_UNDEFINED` for every retrieved image (line 707) and
`m_SwapchainOutOfDate` is cleared (line 739). -/
def createSwapchain (env : SwapchainEnv) (s : GraphicsState) : Bool × GraphicsState :=
  match env.formats with
  | [] => (false, s)
  | f0 :: fs =>
      let fmt := chooseFormatLoop f0 (f0 :: fs)
      let mode := choosePresentMode env.presentModes
      let extent := chooseSwapExtent env.caps env.windowSize
      let req := chooseImageCount env.caps
      let s1 :=
        { s with swapchainFormat := fmt.format, swapchainExtent := extent,
                 presentMode := mode, requestedImageCount := req }
      if env.createOk = false then (false, s1)
      else
        let s2 :=
          { s1 with swapchainImageLayouts :=
              List.replicate env.deviceImageCount ImageLayout.undefined }
        if env.viewsOk = false then (false, s2)
        else (true, { s2 with swapchainOutOfDate := false })

/-- `GraphicsSystem::CleanupSwapchain` (lines 1028-1053): views, images and
tracked layouts are cleared. -/
def cleanupSwapchain (s : GraphicsState) : GraphicsState :=
  { s with swapchainImageLayouts := [] }

/-- `GraphicsSystem::CleanupDepthResources` (lines 892-913): resets the depth
layout to undefined. -/
def cleanupDepthResources (s : GraphicsState) : GraphicsState :=
  { s with depthImageLayout := ImageLayout.undefined }

/-- `GraphicsSystem::CleanupHDRRenderTarget` (lines 968-989): resets the HDR
layout to undefined. -/
def cleanupHDRRenderTarget (s : GraphicsState) : GraphicsState :=
  { s with hdrImageLayout := ImageLayout.undefined }

/-- `GraphicsSystem::CreateDepthResources` (lines 836-890): on success the
tracked depth layout is set to undefined (line 888). -/
def createDepthResources (ok : Bool) (s : GraphicsState) : Bool × GraphicsState :=
  if ok then (true, { s with depthImageLayout := ImageLayout.undefined }) else (false, s)

/-- `GraphicsSystem::CreateHDRRenderTarget` (lines 915-966): on success the
tracked HDR layout is set to undefined (line 964). -/
def createHDRRenderTarget (ok : Bool) (s : GraphicsState) : Bool × GraphicsState :=
  if ok then (true, { s with hdrImageLayout := ImageLayout.undefined }) else (false, s)

/-- `GraphicsSystem::RecreateSwapchain` (lines 991-1026): wait idle, tear down
the chain and both extent-dependent targets, rebuild all three, then clear
both staleness flags. -/
def recreateSwapchain (env : RecreateEnv) (s : GraphicsState) : Bool × GraphicsState :=
  let s1 := cleanupHDRRenderTarget (cleanupDepthResources (cleanupSwapchain s))
  match createSwapchain env.swapEnv s1 with
  | (false, s2) => (false, s2)
  | (true, s2) =>
      match createDepthResources env.depthOk s2 with
      | (false, s3) => (false, s3)
      | (true, s3) =>
          match createHDRRenderTarget env.hdrOk s3 with
          | (false, s4) => (false, s4)
          | (true, s4) =>
              (true, { s4 with swapchainOutOfDate := false, framebufferResized := false })

/-- Set the `fenceSignaled` flag of slot `i`. -/
def updateFence : List FrameSlot → Nat → Bool → List FrameSlot
  | [], _, _ => []
  | f :: fs, 0, v => { f with fenceSignaled := v } :: fs
  | f :: fs, Nat.succ n, v => f :: updateFence fs n v

/-- State update for `vkResetFences` on the current slot's fence. -/
def setSlotFence (s : GraphicsState) (i : Nat) (v : Bool) : GraphicsState :=
  { s with frames := updateFence s.frames i v }

/-- The fence status of slot `i`. -/
def slotFenceSignaled (s : GraphicsState) (i : Nat) : Bool :=
  (s.frames.getD i defaultFrameSlot).fenceSignaled

/-- Acquisition tail of `BeginFrame` (lines 1353-1386): acquire, handle
out-of-date by marking staleness, then reset and begin the slot's command
buffer. -/
def beginFrameAcquire (env : BeginFrameEnv) (s : GraphicsState) (acts : List FrameAction) :
    Option Nat × GraphicsState × List FrameAction :=
  let idx := s.currentFrameIndex
  let acts1 := acts ++ [FrameAction.acquired]
  match env.acquire with
  | AcquireResult.outOfDate => (none, { s with swapchainOutOfDate := true }, acts1)
  | AcquireResult.errOther => (none, s, acts1)
  | _ =>
      let slot := s.frames.getD idx defaultFrameSlot
      if slot.commandBufferValid = false then (none, s, acts1)
      else
        let acts2 := acts1 ++ [FrameAction.cbReset idx, FrameAction.cbBegan idx]
        if env.beginCmdOk = false then (none, s, acts2)
        else (some env.acquiredIndex, s, acts2)

/-- Fence handshake of `BeginFrame` (lines 1333-1351): wait for the slot's
fence, then reset it to the unsignaled state; both are skipped when the fence
handle is null. -/
def beginFrameBody (env : BeginFrameEnv) (s : GraphicsState) (acts : List FrameAction) :
    Option Nat × GraphicsState × List FrameAction :=
  let idx := s.currentFrameIndex
  let slot := s.frames.getD idx defaultFrameSlot
  if slot.fencePresent = true then
    if env.waitFenceOk = false then (none, s, acts ++ [FrameAction.waitedFence idx])
    else if env.resetFenceOk = false then (none, s, acts ++ [FrameAction.waitedFence idx])
    else
      beginFrameAcquire env (setSlotFence s idx false)
        (acts ++ [FrameAction.waitedFence idx, FrameAction.resetFenceCall idx])
  else beginFrameAcquire env s acts

/-- `GraphicsSystem::BeginFrame` (lines 1320-1387).  Returns the acquired
image index on success (`none` models `return false`), the resulting member
state, and the trace of device calls made. -/
def beginFrame (env : BeginFrameEnv) (s : GraphicsState) :
    Option Nat × GraphicsState × List FrameAction :=
  if s.swapchainOutOfDate = true ∨ s.framebufferResized = true then
    match recreateSwapchain env.recreate s with
    | (false, s1) => (none, s1, [FrameAction.recreated])
    | (true, s1) => beginFrameBody env s1 [FrameAction.recreated]
  else beginFrameBody env s []

/-- `GraphicsSystem::EndFrame` (lines 1389-1453): end recording, submit,
present; an out-of-date/suboptimal present or a pending resize request marks
staleness but still counts as success; only then is the frame index advanced
modulo `MAX_FRAMES_IN_FLIGHT`. -/
def endFrame (env : EndFrameEnv) (s : GraphicsState) : Bool × GraphicsState :=
  if env.endCmdOk = false then (false, s)
  else if env.submitOk = false then (false, s)
  else if env.present = PresentResult.outOfDate ∨ env.present = PresentResult.suboptimal
      ∨ s.framebufferResized = true then
    (true, { s with swapchainOutOfDate := true,
                    currentFrameIndex := (s.currentFrameIndex + 1) % maxFramesInFlight })
  else if env.present ≠ PresentResult.success then (false, s)
  else (true, { s with currentFrameIndex := (s.currentFrameIndex + 1) % maxFramesInFlight })

/-- The wait loop of `GraphicsSystem::HandleResize` (lines 1459-1468):
successive `SDL_GetWindowSize` observations are consumed while either
dimension is zero; the first non-zero observation ends the loop.  `none`
models the loop never terminating (the window stays minimized). -/
def handleResizeObserve : List Extent2D → Option Extent2D
  | [] => none
  | e :: es => if e.width = 0 ∨ e.height = 0 then handleResizeObserve es else some e

/-- `GraphicsSystem::HandleResize` (lines 1455-1474): block until the window
reports a non-zero size, then mark both staleness flags.  `none` models the
call still blocked inside the wait loop. -/
def handleResize (sizes : List Extent2D) (s : GraphicsState) : Option GraphicsState :=
  match handleResizeObserve sizes with
  | none => none
  | some _ => some { s with framebufferResized := true, swapchainOutOfDate := true }

/-- `GraphicsSystem::TransitionImage` (lines 1673-1701): early-out when the
two layouts are equal, otherwise record exactly one image memory barrier into
the command buffer. -/
def transitionImage (cmd : List Barrier) (image : Nat) (oldLayout newLayout : ImageLayout)
    (srcStage srcAccess dstStage dstAccess aspectMask : Nat) : List Barrier :=
  if oldLayout = newLayout then cmd
  else cmd ++ [{ image := image, oldLayout := oldLayout, newLayout := newLayout,
                 srcStage := srcStage, srcAccess := srcAccess,
                 dstStage := dstStage, dstAccess := dstAccess, aspectMask := aspectMask }]

/-- `GraphicsSystem::GetSwapchainImageLayout` (GraphicsSystem.hpp lines
489-492): in-range index reads the tracked layout, out-of-range returns
`VK_IMAGE_LAYOUT_UNDEFINED`. -/
def getSwapchainImageLayout (layouts : List ImageLayout) (index : Nat) : ImageLayout :=
  layouts.getD index ImageLayout.undefined

/-- `GraphicsSystem::SetSwapchainImageLayout` (GraphicsSystem.hpp lines
494-500): in-range index overwrites the tracked layout, out-of-range is a
no-op. -/
def setSwapchainImageLayout (layouts : List ImageLayout) (index : Nat) (l : ImageLayout) :
    List ImageLayout :=
  if index < layouts.length then layouts.set index l else layouts

/-- Modelled from the spec: the spec's failure semantics ("attempting to
transition an out-of-range or destroyed image handle is a programmer error
(fatal, not recoverable) ... logged and the current frame is abandoned")
demand that a tracked-image state write with an out-of-range index report
failure instead of silently returning.  The source's
`SetSwapchainImageLayout` has no failure channel; this checked variant, which
follows the spec's words, is compared against it. -/
def setSwapchainImageLayoutSpec (layouts : List ImageLayout) (index : Nat) (l : ImageLayout) :
    Option (List ImageLayout) :=
  if index < layouts.length then some (layouts.set index l) else none

/-- `GraphicsSystem::RecordSwapchainClear` (lines 743-810): a null command
buffer, an out-of-range image index, or a null image handle are each logged
and abort the call with `false` (the frame is abandoned); otherwise the image
is cleared and its tracked layout set to `PRESENT_SRC`.  `imageNullAt i`
models `m_SwapchainImages[i] == VK_NULL_HANDLE` (a destroyed handle). -/
def recordSwapchainClear (cmdValid : Bool) (imageIndex : Nat) (imageNullAt : Nat → Bool)
    (s : GraphicsState) : Bool × GraphicsState :=
  if cmdValid = false then (false, s)
  else if s.swapchainImageLayouts.length ≤ imageIndex then (false, s)
  else if imageNullAt imageIndex = true then (false, s)
  else
    (true, { s with swapchainImageLayouts :=
        s.swapchainImageLayouts.set imageIndex ImageLayout.presentSrc })

/-- Slot state right after `Initialize`: `CreateSyncPrimitives` creates every
`renderFence` with `VK_FENCE_CREATE_SIGNALED_BIT` (line 1124) and
`CreateCommandPools` allocates a command buffer per slot. -/
def initialFrameSlot : FrameSlot :=
  { fencePresent := true, fenceSignaled := true, commandBufferValid := true }

/-- Member state right after a successful `GraphicsSystem::Initialize` with
`imageCount` retrieved swapchain images: `m_CurrentFrameIndex` starts at `0`
(GraphicsSystem.hpp line 600), both staleness flags start false, and every
tracked layout is undefined. -/
def initialGraphicsState (imageCount : Nat) (extent : Extent2D) (format : Nat)
    (mode : Nat) (req : Nat) : GraphicsState :=
  { currentFrameIndex := 0,
    frames := List.replicate maxFramesInFlight initialFrameSlot,
    swapchainOutOfDate := false,
    framebufferResized := false,
    swapchainImageLayouts := List.replicate imageCount ImageLayout.undefined,
    depthImageLayout := ImageLayout.undefined,
    hdrImageLayout := ImageLayout.undefined,
    swapchainExtent := extent,
    swapchainFormat := format,
    presentMode := mode,
    requestedImageCount := req }

/-- Per-binding capability flags (`VkDescriptorBindingFlags`). -/
structure BindingFlags where
  updateAfterBind : Bool
  partlyBound : Bool
  variableCount : Bool
deriving DecidableEq, Repr

/-- One `VkDescriptorSetLayoutBinding` together with its binding flags. -/
structure DescriptorBinding where
  binding : Nat
  descriptorType : Nat
  descriptorCount : Nat
  flags : BindingFlags
deriving DecidableEq, Repr

/-- The five bindless bindings of `CreateBindlessDescriptors` (lines
1190-1234): their indices, descriptor types, capacities, and the flags array
`bindingFlags[5]` pairing each binding with its `VkDescriptorBindingFlags`. -/
def bindlessBindings : List DescriptorBinding :=
  [ { binding := 0, descriptorType := vkDescriptorTypeSampledImage, descriptorCount := 16384,
      flags := { updateAfterBind := true, partlyBound := true, variableCount := true } },
    { binding := 1, descriptorType := vkDescriptorTypeSampler, descriptorCount := 128,
      flags := { updateAfterBind := true, partlyBound := true, variableCount := false } },
    { binding := 2, descriptorType := vkDescriptorTypeStorageBuffer, descriptorCount := 1024,
      flags := { updateAfterBind := true, partlyBound := true, variableCount := false } },
    { binding := 3, descriptorType := vkDescriptorTypeUniformBuffer, descriptorCount := 256,
      flags := { updateAfterBind := true, partlyBound := true, variableCount := false } },
    { binding := 4, descriptorType := vkDescriptorTypeStorageImage, descriptorCount := 512,
      flags := { updateAfterBind := true, partlyBound := true, variableCount := false } } ]

/-- `poolInfo.maxSets = 1` (line 1179): a single global bindless set. -/
def bindlessPoolMaxSets : Nat := 1

/-- The one-time setup sequence of `GraphicsSystem::Initialize` (part_005
lines 24-88), in call order. -/
inductive SetupStep
  | volkInit
  | createInstance
  | createSurface
  | selectPhysicalDevice
  | createLogicalDevice
  | getQueues
  | initAllocator
  | createTracyContext
  | createSwapchainStep
  | createDepthStep
  | createHdrStep
  | createCommandPools
  | createSyncPrimitives
  | createBindlessDescriptors
  | createPipelineInfrastructure
  | shaderSystemInit
  | createShadersStep
deriving DecidableEq, Repr

/-- The calls `Initialize` makes, in order. -/
def setupSteps : List SetupStep :=
  [ SetupStep.volkInit, SetupStep.createInstance, SetupStep.createSurface,
    SetupStep.selectPhysicalDevice, SetupStep.createLogicalDevice, SetupStep.getQueues,
    SetupStep.initAllocator, SetupStep.createTracyContext, SetupStep.createSwapchainStep,
    SetupStep.createDepthStep, SetupStep.createHdrStep, SetupStep.createCommandPools,
    SetupStep.createSyncPrimitives, SetupStep.createBindlessDescriptors,
    SetupStep.createPipelineInfrastructure, SetupStep.shaderSystemInit,
    SetupStep.createShadersStep ]

/-- Input to `ShaderSystem::CompileToSpirv` (ShaderSystem.cpp lines 223-321):
the success of each pipeline stage, and the emitted bytecode as 32-bit words
(the blob is modelled at word granularity; the byte-alignment check on line
295 only logs a warning and changes no behavior). -/
structure CompileInput where
  sessionValid : Bool
  moduleNameNonEmpty : Bool
  moduleLoads : Bool
  entryPointFound : Bool
  composeOk : Bool
  linkOk : Bool
  emitOk : Bool
  emittedWords : List Nat
deriving DecidableEq, Repr

/-- Result of a successful `CompileToSpirv`: the SPIR-V words handed back, and
whether the magic-header mismatch error was logged (line 309-312 logs an
error without returning). -/
structure CompileOutcome where
  spirv : List Nat
  magicMismatchLogged : Bool
deriving DecidableEq, Repr

/-- `ShaderSystem::CompileToSpirv`: every stage failure, an empty blob, or a
blob of fewer than 5 words returns `false`; a magic mismatch is logged but
compilation still succeeds with the mismatching words. -/
def compileToSpirv (inp : CompileInput) : Option CompileOutcome :=
  if inp.sessionValid = false then none
  else if inp.moduleNameNonEmpty = false then none
  else if inp.moduleLoads = false then none
  else if inp.entryPointFound = false then none
  else if inp.composeOk = false then none
  else if inp.linkOk = false then none
  else if inp.emitOk = false then none
  else if inp.emittedWords.length = 0 then none
  else if inp.emittedWords.length < 5 then none
  else some { spirv := inp.emittedWords,
              magicMismatchLogged := inp.emittedWords.headD 0 != kSpirvMagic }

/-- `ShaderSystem::CreateShaderObject` (ShaderSystem.cpp lines 182-213):
compile, then create the shader object from the compiled words
(`createInfo.pCode = spirv.data()`); returns the bytecode the object was
created from. -/
def createShaderObject (inp : CompileInput) (vkCreateOk : Bool) : Option (List Nat) :=
  match compileToSpirv inp with
  | none => none
  | some out => if vkCreateOk then some out.spirv else none

/-- Every slot-indexed action in a trace names slot `idx`. -/
def traceSlotsOk (acts : List FrameAction) (idx : Nat) : Prop :=
  ∀ a ∈ acts, ∀ i, FrameAction.slotIndex a = some i → i = idx

/-- A concrete post-`Initialize` state with three swapchain images, used by
witnesses. -/
def sampleState : GraphicsState :=
  initialGraphicsState 3 { width := 1920, height := 1080 } vkFormatB8G8R8A8Srgb
    vkPresentModeMailbox 4

/-- A concrete healthy swapchain environment, used by witnesses. -/
def sampleSwapEnv : SwapchainEnv :=
  { caps := { minImageCount := 2, maxImageCount := 8,
              currentExtent := { width := 1920, height := 1080 },
              minImageExtent := { width := 1, height := 1 },
              maxImageExtent := { width := 4096, height := 4096 } },
    formats := [ { format := vkFormatB8G8R8A8Unorm, colorSpace := vkColorSpaceSrgbNonlinear },
                 { format := vkFormatB8G8R8A8Srgb, colorSpace := vkColorSpaceSrgbNonlinear } ],
    presentModes := [vkPresentModeFifo, vkPresentModeImmediate, vkPresentModeMailbox],
    windowSize := { width := 1920, height := 1080 },
    createOk := true, deviceImageCount := 3, viewsOk := true }

/-- A concrete environment in which `RecreateSwapchain` succeeds. -/
def sampleRecreateEnv : RecreateEnv :=
  { swapEnv := sampleSwapEnv, depthOk := true, hdrOk := true }

/-- A `BeginFrame` environment whose acquisition reports out-of-date. -/
def sampleBeginEnvOutOfDate : BeginFrameEnv :=
  { recreate := sampleRecreateEnv, waitFenceOk := true, resetFenceOk := true,
    acquire := AcquireResult.outOfDate, acquiredIndex := 0, beginCmdOk := true }

/-- A `BeginFrame` environment in which every device call succeeds. -/
def sampleBeginEnvOk : BeginFrameEnv :=
  { recreate := sampleRecreateEnv, waitFenceOk := true, resetFenceOk := true,
    acquire := AcquireResult.success, acquiredIndex := 1, beginCmdOk := true }

/-- An `EndFrame` environment in which every device call succeeds. -/
def sampleEndEnvOk : EndFrameEnv :=
  { endCmdOk := true, submitOk := true, present := PresentResult.success }

/-- A rebuild environment whose surface reports a zero `currentExtent`
(minimized window) with every device call succeeding — the situation of a
rebuild triggered by an out-of-date present while the window is minimized. -/
def zeroExtentRecreateEnv : RecreateEnv :=
  { swapEnv :=
      { caps := { minImageCount := 2, maxImageCount := 8,
                  currentExtent := { width := 0, height := 0 },
                  minImageExtent := { width := 0, height := 0 },
                  maxImageExtent := { width := 4096, height := 4096 } },
        formats := [ { format := vkFormatB8G8R8A8Srgb, colorSpace := vkColorSpaceSrgbNonlinear } ],
        presentModes := [vkPresentModeFifo],
        windowSize := { width := 0, height := 0 },
        createOk := true, deviceImageCount := 3, viewsOk := true },
    depthOk := true, hdrOk := true }

/-- A compile input whose every stage succeeds but whose emitted bytecode
starts with a word that is not the SPIR-V magic header. -/
def badMagicInput : CompileInput :=
  { sessionValid := true, moduleNameNonEmpty := true, moduleLoads := true,
    entryPointFound := true, composeOk := true, linkOk := true, emitOk := true,
    emittedWords := [1, 2, 3, 4, 5] }

/-! ## Helper lemmas -/

/-- Reading back the layout just written at an in-range index. -/
theorem layout_getD_set_self (l : List ImageLayout) (i : Nat) (x : ImageLayout)
    (h : i < l.length) : (l.set i x).getD i ImageLayout.undefined = x := by
  induction l generalizing i with
  | nil => simp at h
  | cons hd tl ih =>
      cases i with
      | zero => rfl
      | succ n =>
          have hn : n < tl.length := by simpa using h
          simpa [List.getD] using ih n hn

/-- Reading back the fence flag just written at an in-range slot. -/
theorem updateFence_getD_self (l : List FrameSlot) (i : Nat) (v : Bool)
    (h : i < l.length) :
    ((updateFence l i v).getD i defaultFrameSlot).fenceSignaled = v := by
  induction l generalizing i with
  | nil => simp at h
  | cons hd tl ih =>
      cases i with
      | zero => rfl
      | succ n =>
          have hn : n < tl.length := by simpa using h
          simpa [updateFence, List.getD] using ih n hn

/-- A format satisfying the SRGB pick has format code `B8G8R8A8_SRGB`. -/
theorem isSrgbPick_format (f : SurfaceFormat) (h : isSrgbPick f = true) :
    f.format = vkFormatB8G8R8A8Srgb := by
  simp only [isSrgbPick, Bool.and_eq_true, beq_iff_eq] at h
  exact h.1

/-- If some reported format is the SRGB pick, the selection loop returns an
SRGB pick, whatever the starting selection. -/
theorem chooseFormatLoop_srgb (l : List SurfaceFormat) :
    ∀ sel, (∃ f ∈ l, isSrgbPick f = true) →
      isSrgbPick (chooseFormatLoop sel l) = true := by
  induction l with
  | nil => intro sel h; simp at h
  | cons g gs ih =>
      intro sel h
      by_cases hg : isSrgbPick g = true
      · simp [chooseFormatLoop, hg]
      · have hg' : isSrgbPick g = false := by
          revert hg; cases isSrgbPick g <;> simp
        rcases h with ⟨f, hf, hsrgb⟩
        rcases List.mem_cons.mp hf with rfl | hmem
        · rw [hg'] at hsrgb; cases hsrgb
        · simp only [chooseFormatLoop, hg', Bool.false_eq_true, if_false]
          exact ih _ ⟨f, hmem, hsrgb⟩

/-- If no reported format matches either pick, the loop keeps the starting
selection. -/
theorem chooseFormatLoop_fallback (l : List SurfaceFormat) :
    ∀ sel, (∀ f ∈ l, isSrgbPick f = false ∧ isUnormPick f = false) →
      chooseFormatLoop sel l = sel := by
  induction l with
  | nil => intro sel _; rfl
  | cons g gs ih =>
      intro sel h
      have hg := h g (List.mem_cons_self g gs)
      simp only [chooseFormatLoop, hg.1, hg.2, Bool.false_eq_true, if_false]
      exact ih sel (fun f hf => h f (List.mem_cons_of_mem g hf))

/-- MAILBOX present anywhere in the list wins. -/
theorem choosePresentModeLoop_mailbox (l : List Nat) :
    ∀ sel, vkPresentModeMailbox ∈ l →
      choosePresentModeLoop sel l = vkPresentModeMailbox := by
  induction l with
  | nil => intro sel h; simp at h
  | cons m ms ih =>
      intro sel h
      by_cases hm : m = vkPresentModeMailbox
      · subst hm; simp [choosePresentModeLoop]
      · have hmem : vkPresentModeMailbox ∈ ms := by
          rcases List.mem_cons.mp h with h1 | h2
          · exact absurd h1.symm hm
          · exact h2
        simp only [choosePresentModeLoop, beq_iff_eq, hm, if_false]
        exact ih _ hmem

/-- With no MAILBOX in the remaining list, an IMMEDIATE selection is kept. -/
theorem choosePresentModeLoop_keep_immediate (l : List Nat) :
    vkPresentModeMailbox ∉ l →
      choosePresentModeLoop vkPresentModeImmediate l = vkPresentModeImmediate := by
  induction l with
  | nil => intro _; rfl
  | cons m ms ih =>
      intro h
      have hm : m ≠ vkPresentModeMailbox := by
        intro he; exact h (by rw [he]; exact List.mem_cons_self _ _)
      have hms : vkPresentModeMailbox ∉ ms := fun hx => h (List.mem_cons_of_mem m hx)
      by_cases hi : m = vkPresentModeImmediate
      · subst hi
        simp only [choosePresentModeLoop, beq_iff_eq, hm, if_false, beq_self_eq_true,
          if_true]
        exact ih hms
      · simp only [choosePresentModeLoop, beq_iff_eq, hm, hi, if_false]
        exact ih hms

/-- Without MAILBOX but with IMMEDIATE reported, IMMEDIATE wins. -/
theorem choosePresentModeLoop_immediate (l : List Nat) :
    ∀ sel, vkPresentModeMailbox ∉ l → vkPresentModeImmediate ∈ l →
      choosePresentModeLoop sel l = vkPresentModeImmediate := by
  induction l with
  | nil => intro sel _ hi; simp at hi
  | cons m ms ih =>
      intro sel h hi
      have hm : m ≠ vkPresentModeMailbox := by
        intro he; exact h (by rw [he]; exact List.mem_cons_self _ _)
      have hms : vkPresentModeMailbox ∉ ms := fun hx => h (List.mem_cons_of_mem m hx)
      by_cases him : m = vkPresentModeImmediate
      · subst him
        simp only [choosePresentModeLoop, beq_iff_eq, hm, if_false, beq_self_eq_true,
          if_true]
        exact choosePresentModeLoop_keep_immediate ms hms
      · have hims : vkPresentModeImmediate ∈ ms := by
          rcases List.mem_cons.mp hi with h1 | h2
          · exact absurd h1.symm him
          · exact h2
        simp only [choosePresentModeLoop, beq_iff_eq, hm, him, if_false]
        exact ih _ hms hims

/-- With neither MAILBOX nor IMMEDIATE reported, the starting selection
(FIFO) is kept. -/
theorem choosePresentModeLoop_neither (l : List Nat) :
    ∀ sel, vkPresentModeMailbox ∉ l → vkPresentModeImmediate ∉ l →
      choosePresentModeLoop sel l = sel := by
  induction l with
  | nil => intro sel _ _; rfl
  | cons m ms ih =>
      intro sel h hi
      have hm : m ≠ vkPresentModeMailbox := by
        intro he; exact h (by rw [he]; exact List.mem_cons_self _ _)
      have him : m ≠ vkPresentModeImmediate := by
        intro he; exact hi (by rw [he]; exact List.mem_cons_self _ _)
      simp only [choosePresentModeLoop, beq_iff_eq, hm, him, if_false]
      exact ih sel (fun hx => h (List.mem_cons_of_mem m hx))
        (fun hx => hi (List.mem_cons_of_mem m hx))

/-- `CreateSwapchain` leaves the frame-scheduler and the other trackers
alone: it touches only swapchain-related fields. -/
theorem createSwapchain_preserves (env : SwapchainEnv) (s : GraphicsState) :
    (createSwapchain env s).2.currentFrameIndex = s.currentFrameIndex ∧
    (createSwapchain env s).2.frames = s.frames ∧
    (createSwapchain env s).2.depthImageLayout = s.depthImageLayout ∧
    (createSwapchain env s).2.hdrImageLayout = s.hdrImageLayout ∧
    (createSwapchain env s).2.framebufferResized = s.framebufferResized := by
  unfold createSwapchain
  cases henv : env.formats with
  | nil => exact ⟨rfl, rfl, rfl, rfl, rfl⟩
  | cons f0 fs =>
      by_cases hc : env.createOk = false
      · simp [hc]
      · by_cases hv : env.viewsOk = false
        · simp [hc, hv]
        · simp [hc, hv]

/-- On success, `CreateSwapchain` establishes these swapchain fields. -/
theorem createSwapchain_success_fields (env : SwapchainEnv) (s : GraphicsState)
    (h : (createSwapchain env s).1 = true) :
    (createSwapchain env s).2.swapchainImageLayouts =
        List.replicate env.deviceImageCount ImageLayout.undefined ∧
    (createSwapchain env s).2.swapchainOutOfDate = false ∧
    (createSwapchain env s).2.swapchainExtent = chooseSwapExtent env.caps env.windowSize ∧
    (createSwapchain env s).2.presentMode = choosePresentMode env.presentModes ∧
    (createSwapchain env s).2.requestedImageCount = chooseImageCount env.caps := by
  unfold createSwapchain at h ⊢
  cases henv : env.formats with
  | nil => simp [henv] at h
  | cons f0 fs =>
      by_cases hc : env.createOk = false
      · simp [henv, hc] at h
      · by_cases hv : env.viewsOk = false
        · simp [henv, hc, hv] at h
        · simp [hc, hv]

/-- On success with a nonempty format list, the chosen surface format is the
output of the selection loop started at the first reported format. -/
theorem createSwapchain_success_format (env : SwapchainEnv) (s : GraphicsState)
    (f0 : SurfaceFormat) (fs : List SurfaceFormat) (hf : env.formats = f0 :: fs)
    (h : (createSwapchain env s).1 = true) :
    (createSwapchain env s).2.swapchainFormat = (chooseFormatLoop f0 (f0 :: fs)).format := by
  unfold createSwapchain at h ⊢
  rw [hf] at h ⊢
  by_cases hc : env.createOk = false
  · simp [hc] at h
  · by_cases hv : env.viewsOk = false
    · simp [hc, hv] at h
    · simp [hc, hv]

/-- `RecreateSwapchain` leaves the frame scheduler alone: the frame index and
the per-slot resources are untouched. -/
theorem recreateSwapchain_preserves (env : RecreateEnv) (s : GraphicsState) :
    (recreateSwapchain env s).2.currentFrameIndex = s.currentFrameIndex ∧
    (recreateSwapchain env s).2.frames = s.frames := by
  unfold recreateSwapchain
  rcases hcs : createSwapchain env.swapEnv
      (cleanupHDRRenderTarget (cleanupDepthResources (cleanupSwapchain s))) with ⟨b, s2⟩
  have hp := createSwapchain_preserves env.swapEnv
      (cleanupHDRRenderTarget (cleanupDepthResources (cleanupSwapchain s)))
  rw [hcs] at hp
  simp only [hcs]
  cases b with
  | false => exact ⟨hp.1, hp.2.1⟩
  | true =>
      by_cases hd : env.depthOk = true
      · by_cases hh : env.hdrOk = true
        · simp [createDepthResources, createHDRRenderTarget, hd, hh]
          exact ⟨hp.1, hp.2.1⟩
        · simp [createDepthResources, createHDRRenderTarget, hd, hh]
          exact ⟨hp.1, hp.2.1⟩
      · simp [createDepthResources, hd]
        exact ⟨hp.1, hp.2.1⟩

/-- On success, `RecreateSwapchain` resets every extent-dependent tracked
layout to undefined, clears both staleness flags, and adopts the extent the
surface reports at rebuild time. -/
theorem recreateSwapchain_success_fields (env : RecreateEnv) (s : GraphicsState)
    (h : (recreateSwapchain env s).1 = true) :
    (recreateSwapchain env s).2.swapchainImageLayouts =
        List.replicate env.swapEnv.deviceImageCount ImageLayout.undefined ∧
    (recreateSwapchain env s).2.depthImageLayout = ImageLayout.undefined ∧
    (recreateSwapchain env s).2.hdrImageLayout = ImageLayout.undefined ∧
    (recreateSwapchain env s).2.swapchainOutOfDate = false ∧
    (recreateSwapchain env s).2.framebufferResized = false ∧
    (recreateSwapchain env s).2.swapchainExtent =
        chooseSwapExtent env.swapEnv.caps env.swapEnv.windowSize := by
  unfold recreateSwapchain at h ⊢
  rcases hcs : createSwapchain env.swapEnv
      (cleanupHDRRenderTarget (cleanupDepthResources (cleanupSwapchain s))) with ⟨b, s2⟩
  simp only [hcs] at h ⊢
  cases b with
  | false => simp at h
  | true =>
      have hfields := createSwapchain_success_fields env.swapEnv
        (cleanupHDRRenderTarget (cleanupDepthResources (cleanupSwapchain s)))
        (by rw [hcs])
      rw [hcs] at hfields
      by_cases hd : env.depthOk = true
      · by_cases hh : env.hdrOk = true
        · simp [createDepthResources, createHDRRenderTarget, hd, hh]
          exact ⟨hfields.1, hfields.2.2.1⟩
        · simp [createDepthResources, createHDRRenderTarget, hd, hh] at h
      · simp [createDepthResources, hd] at h

/-- Concatenation preserves the slot-trace property. -/
theorem traceSlotsOk_append {a b : List FrameAction} {idx : Nat}
    (ha : traceSlotsOk a idx) (hb : traceSlotsOk b idx) : traceSlotsOk (a ++ b) idx := by
  intro x hx i hi
  rcases List.mem_append.mp hx with h1 | h2
  · exact ha x h1 i hi
  · exact hb x h2 i hi

/-- The acquisition action names no slot. -/
theorem traceSlotsOk_acquired (idx : Nat) : traceSlotsOk [FrameAction.acquired] idx := by
  intro a ha i hi
  have h := List.mem_singleton.mp ha
  subst h
  simp [FrameAction.slotIndex] at hi

/-- The recreation action names no slot. -/
theorem traceSlotsOk_recreated (idx : Nat) : traceSlotsOk [FrameAction.recreated] idx := by
  intro a ha i hi
  have h := List.mem_singleton.mp ha
  subst h
  simp [FrameAction.slotIndex] at hi

/-- The fence wait action for slot `idx` only names slot `idx`. -/
theorem traceSlotsOk_wait (idx : Nat) : traceSlotsOk [FrameAction.waitedFence idx] idx := by
  intro a ha i hi
  have h := List.mem_singleton.mp ha
  subst h
  simp [FrameAction.slotIndex] at hi
  exact hi.symm

/-- The wait-and-reset pair for slot `idx` only names slot `idx`. -/
theorem traceSlotsOk_waitReset (idx : Nat) :
    traceSlotsOk [FrameAction.waitedFence idx, FrameAction.resetFenceCall idx] idx := by
  intro a ha i hi
  simp only [List.mem_cons, List.not_mem_nil, or_false] at ha
  rcases ha with rfl | rfl
  · simp [FrameAction.slotIndex] at hi; exact hi.symm
  · simp [FrameAction.slotIndex] at hi; exact hi.symm

/-- The command-buffer reset-and-begin pair for slot `idx` only names slot
`idx`. -/
theorem traceSlotsOk_cb (idx : Nat) :
    traceSlotsOk [FrameAction.cbReset idx, FrameAction.cbBegan idx] idx := by
  intro a ha i hi
  simp only [List.mem_cons, List.not_mem_nil, or_false] at ha
  rcases ha with rfl | rfl
  · simp [FrameAction.slotIndex] at hi; exact hi.symm
  · simp [FrameAction.slotIndex] at hi; exact hi.symm

/-- The acquisition tail returns a result state with the same frame index and
the same slot pool as its input. -/
theorem beginFrameAcquire_state (env : BeginFrameEnv) (s : GraphicsState)
    (acts : List FrameAction) :
    (beginFrameAcquire env s acts).2.1.currentFrameIndex = s.currentFrameIndex ∧
    (beginFrameAcquire env s acts).2.1.frames = s.frames := by
  unfold beginFrameAcquire
  cases env.acquire with
  | outOfDate => exact ⟨rfl, rfl⟩
  | errOther => exact ⟨rfl, rfl⟩
  | success =>
      dsimp only
      split
      · exact ⟨rfl, rfl⟩
      · split
        · exact ⟨rfl, rfl⟩
        · exact ⟨rfl, rfl⟩
  | suboptimal =>
      dsimp only
      split
      · exact ⟨rfl, rfl⟩
      · split
        · exact ⟨rfl, rfl⟩
        · exact ⟨rfl, rfl⟩

/-- Every action the acquisition tail appends names only the current slot. -/
theorem beginFrameAcquire_trace (env : BeginFrameEnv) (s : GraphicsState)
    (acts : List FrameAction) (h : traceSlotsOk acts s.currentFrameIndex) :
    traceSlotsOk (beginFrameAcquire env s acts).2.2 s.currentFrameIndex := by
  unfold beginFrameAcquire
  cases env.acquire with
  | outOfDate => exact traceSlotsOk_append h (traceSlotsOk_acquired _)
  | errOther => exact traceSlotsOk_append h (traceSlotsOk_acquired _)
  | success =>
      dsimp only
      split
      · exact traceSlotsOk_append h (traceSlotsOk_acquired _)
      · split
        · exact traceSlotsOk_append (traceSlotsOk_append h (traceSlotsOk_acquired _))
            (traceSlotsOk_cb _)
        · exact traceSlotsOk_append (traceSlotsOk_append h (traceSlotsOk_acquired _))
            (traceSlotsOk_cb _)
  | suboptimal =>
      dsimp only
      split
      · exact traceSlotsOk_append h (traceSlotsOk_acquired _)
      · split
        · exact traceSlotsOk_append (traceSlotsOk_append h (traceSlotsOk_acquired _))
            (traceSlotsOk_cb _)
        · exact traceSlotsOk_append (traceSlotsOk_append h (traceSlotsOk_acquired _))
            (traceSlotsOk_cb _)

/-- The acquisition tail only appends to the incoming trace. -/
theorem beginFrameAcquire_trace_ext (env : BeginFrameEnv) (s : GraphicsState)
    (acts : List FrameAction) :
    ∃ rest, (beginFrameAcquire env s acts).2.2 = acts ++ rest := by
  unfold beginFrameAcquire
  cases env.acquire with
  | outOfDate => exact ⟨[FrameAction.acquired], rfl⟩
  | errOther => exact ⟨[FrameAction.acquired], rfl⟩
  | success =>
      dsimp only
      split
      · exact ⟨[FrameAction.acquired], rfl⟩
      · split
        · exact ⟨[FrameAction.acquired, FrameAction.cbReset s.currentFrameIndex,
            FrameAction.cbBegan s.currentFrameIndex], by simp⟩
        · exact ⟨[FrameAction.acquired, FrameAction.cbReset s.currentFrameIndex,
            FrameAction.cbBegan s.currentFrameIndex], by simp⟩
  | suboptimal =>
      dsimp only
      split
      · exact ⟨[FrameAction.acquired], rfl⟩
      · split
        · exact ⟨[FrameAction.acquired, FrameAction.cbReset s.currentFrameIndex,
            FrameAction.cbBegan s.currentFrameIndex], by simp⟩
        · exact ⟨[FrameAction.acquired, FrameAction.cbReset s.currentFrameIndex,
            FrameAction.cbBegan s.currentFrameIndex], by simp⟩

/-- An out-of-date acquisition marks staleness and fails without touching the
command buffer. -/
theorem beginFrameAcquire_outOfDate (env : BeginFrameEnv) (s : GraphicsState)
    (acts : List FrameAction) (h : env.acquire = AcquireResult.outOfDate) :
    beginFrameAcquire env s acts =
      (none, { s with swapchainOutOfDate := true }, acts ++ [FrameAction.acquired]) := by
  unfold beginFrameAcquire
  rw [h]

/-- Any other acquisition error fails without touching state or the command
buffer. -/
theorem beginFrameAcquire_errOther (env : BeginFrameEnv) (s : GraphicsState)
    (acts : List FrameAction) (h : env.acquire = AcquireResult.errOther) :
    beginFrameAcquire env s acts = (none, s, acts ++ [FrameAction.acquired]) := by
  unfold beginFrameAcquire
  rw [h]

/-- With a live fence and a successful wait and reset, the handshake resets
the slot fence to pending and hands off to the acquisition tail. -/
theorem beginFrameBody_fence_path (env : BeginFrameEnv) (s : GraphicsState)
    (acts : List FrameAction)
    (hfp : (s.frames.getD s.currentFrameIndex defaultFrameSlot).fencePresent = true)
    (hw : env.waitFenceOk = true) (hr : env.resetFenceOk = true) :
    beginFrameBody env s acts =
      beginFrameAcquire env (setSlotFence s s.currentFrameIndex false)
        (acts ++ [FrameAction.waitedFence s.currentFrameIndex,
                  FrameAction.resetFenceCall s.currentFrameIndex]) := by
  unfold beginFrameBody
  dsimp only
  rw [if_pos hfp, if_neg (by simp [hw]), if_neg (by simp [hr])]

/-- The body's result state keeps the current frame index. -/
theorem beginFrameBody_state (env : BeginFrameEnv) (s : GraphicsState)
    (acts : List FrameAction) :
    (beginFrameBody env s acts).2.1.currentFrameIndex = s.currentFrameIndex := by
  unfold beginFrameBody
  dsimp only
  split
  · split
    · rfl
    · split
      · rfl
      · exact (beginFrameAcquire_state env (setSlotFence s s.currentFrameIndex false) _).1
  · exact (beginFrameAcquire_state env s acts).1

/-- Every action the body appends names only the current slot. -/
theorem beginFrameBody_trace (env : BeginFrameEnv) (s : GraphicsState)
    (acts : List FrameAction) (h : traceSlotsOk acts s.currentFrameIndex) :
    traceSlotsOk (beginFrameBody env s acts).2.2 s.currentFrameIndex := by
  unfold beginFrameBody
  dsimp only
  split
  · split
    · exact traceSlotsOk_append h (traceSlotsOk_wait _)
    · split
      · exact traceSlotsOk_append h (traceSlotsOk_wait _)
      · exact beginFrameAcquire_trace env (setSlotFence s s.currentFrameIndex false) _
          (traceSlotsOk_append h (traceSlotsOk_waitReset _))
  · exact beginFrameAcquire_trace env s acts h

/-- The body only appends to the incoming trace. -/
theorem beginFrameBody_trace_ext (env : BeginFrameEnv) (s : GraphicsState)
    (acts : List FrameAction) :
    ∃ rest, (beginFrameBody env s acts).2.2 = acts ++ rest := by
  unfold beginFrameBody
  dsimp only
  split
  · split
    · exact ⟨[FrameAction.waitedFence s.currentFrameIndex], rfl⟩
    · split
      · exact ⟨[FrameAction.waitedFence s.currentFrameIndex], rfl⟩
      · rcases beginFrameAcquire_trace_ext env (setSlotFence s s.currentFrameIndex false)
          (acts ++ [FrameAction.waitedFence s.currentFrameIndex,
                    FrameAction.resetFenceCall s.currentFrameIndex]) with ⟨rest, hr⟩
        exact ⟨[FrameAction.waitedFence s.currentFrameIndex,
                FrameAction.resetFenceCall s.currentFrameIndex] ++ rest,
               by rw [hr, List.append_assoc]⟩
  · exact beginFrameAcquire_trace_ext env s acts

/-- `BeginFrame` never changes the current frame index. -/
theorem beginFrame_state (env : BeginFrameEnv) (s : GraphicsState) :
    (beginFrame env s).2.1.currentFrameIndex = s.currentFrameIndex := by
  unfold beginFrame
  by_cases hflag : s.swapchainOutOfDate = true ∨ s.framebufferResized = true
  · rw [if_pos hflag]
    rcases hrc : recreateSwapchain env.recreate s with ⟨b, s1⟩
    have hp := recreateSwapchain_preserves env.recreate s
    rw [hrc] at hp
    cases b with
    | false => exact hp.1
    | true => exact (beginFrameBody_state env s1 [FrameAction.recreated]).trans hp.1
  · rw [if_neg hflag]
    exact beginFrameBody_state env s []

/-- Every slot-indexed action `BeginFrame` issues names the current slot. -/
theorem beginFrame_trace (env : BeginFrameEnv) (s : GraphicsState) :
    traceSlotsOk (beginFrame env s).2.2 s.currentFrameIndex := by
  unfold beginFrame
  by_cases hflag : s.swapchainOutOfDate = true ∨ s.framebufferResized = true
  · rw [if_pos hflag]
    rcases hrc : recreateSwapchain env.recreate s with ⟨b, s1⟩
    have hp := recreateSwapchain_preserves env.recreate s
    rw [hrc] at hp
    cases b with
    | false => exact traceSlotsOk_recreated _
    | true =>
        have ht := beginFrameBody_trace env s1 [FrameAction.recreated]
          (traceSlotsOk_recreated _)
        rw [hp.1] at ht
        exact ht
  · rw [if_neg hflag]
    exact beginFrameBody_trace env s [] (fun a ha _ _ => absurd ha (List.not_mem_nil a))

/-- A stale state makes the very next `BeginFrame` rebuild first: the first
device call in its trace is the recreation. -/
theorem beginFrame_stale_head (env : BeginFrameEnv) (s : GraphicsState)
    (h : s.swapchainOutOfDate = true ∨ s.framebufferResized = true) :
    (beginFrame env s).2.2.head? = some FrameAction.recreated := by
  unfold beginFrame
  rw [if_pos h]
  rcases hrc : recreateSwapchain env.recreate s with ⟨b, s1⟩
  cases b with
  | false => rfl
  | true =>
      rcases beginFrameBody_trace_ext env s1 [FrameAction.recreated] with ⟨rest, hr⟩
      show (beginFrameBody env s1 [FrameAction.recreated]).2.2.head? = some FrameAction.recreated
      rw [hr]
      rfl

/-- Acquisition failure after a passed wait step: the call fails and the
result trace and state are explicit. -/
theorem beginFrameBody_outOfDate_nil (env : BeginFrameEnv) (s : GraphicsState)
    (hw : env.waitFenceOk = true) (hr : env.resetFenceOk = true)
    (hacq : env.acquire = AcquireResult.outOfDate) :
    (beginFrameBody env s []).1 = none ∧
    (beginFrameBody env s []).2.1.swapchainOutOfDate = true ∧
    ((beginFrameBody env s []).2.2 = [FrameAction.waitedFence s.currentFrameIndex,
        FrameAction.resetFenceCall s.currentFrameIndex, FrameAction.acquired] ∨
     (beginFrameBody env s []).2.2 = [FrameAction.acquired]) := by
  unfold beginFrameBody
  dsimp only
  split
  · rw [if_neg (by simp [hw]), if_neg (by simp [hr]),
      beginFrameAcquire_outOfDate env _ _ hacq]
    exact ⟨rfl, rfl, Or.inl rfl⟩
  · rw [beginFrameAcquire_outOfDate env _ _ hacq]
    exact ⟨rfl, rfl, Or.inr rfl⟩

/-- A failed wait-step-passing `BeginFrame` leaves the slot fence pending. -/
theorem beginFrameBody_fence_pending (env : BeginFrameEnv) (s : GraphicsState)
    (acts : List FrameAction)
    (hidx : s.currentFrameIndex < s.frames.length)
    (hfp : (s.frames.getD s.currentFrameIndex defaultFrameSlot).fencePresent = true)
    (hw : env.waitFenceOk = true) (hr : env.resetFenceOk = true)
    (hacq : env.acquire = AcquireResult.outOfDate ∨ env.acquire = AcquireResult.errOther) :
    (beginFrameBody env s acts).1 = none ∧
    slotFenceSignaled (beginFrameBody env s acts).2.1 s.currentFrameIndex = false := by
  rw [beginFrameBody_fence_path env s acts hfp hw hr]
  rcases hacq with h | h
  · rw [beginFrameAcquire_outOfDate _ _ _ h]
    refine ⟨rfl, ?_⟩
    simpa [slotFenceSignaled, setSlotFence] using
      updateFence_getD_self s.frames s.currentFrameIndex false hidx
  · rw [beginFrameAcquire_errOther _ _ _ h]
    refine ⟨rfl, ?_⟩
    simpa [slotFenceSignaled, setSlotFence] using
      updateFence_getD_self s.frames s.currentFrameIndex false hidx

/-- `EndFrame` advances the frame index exactly on success. -/
theorem endFrame_index (env : EndFrameEnv) (s : GraphicsState) :
    ((endFrame env s).1 = true →
      (endFrame env s).2.currentFrameIndex = (s.currentFrameIndex + 1) % maxFramesInFlight) ∧
    ((endFrame env s).1 = false →
      (endFrame env s).2.currentFrameIndex = s.currentFrameIndex) := by
  unfold endFrame
  by_cases c1 : env.endCmdOk = false
  · rw [if_pos c1]; exact ⟨fun h => Bool.noConfusion h, fun _ => rfl⟩
  · rw [if_neg c1]
    by_cases c2 : env.submitOk = false
    · rw [if_pos c2]; exact ⟨fun h => Bool.noConfusion h, fun _ => rfl⟩
    · rw [if_neg c2]
      by_cases c3 : env.present = PresentResult.outOfDate ∨
          env.present = PresentResult.suboptimal ∨ s.framebufferResized = true
      · rw [if_pos c3]; exact ⟨fun _ => rfl, fun h => Bool.noConfusion h⟩
      · rw [if_neg c3]
        by_cases c4 : env.present ≠ PresentResult.success
        · rw [if_pos c4]; exact ⟨fun h => Bool.noConfusion h, fun _ => rfl⟩
        · rw [if_neg c4]; exact ⟨fun _ => rfl, fun h => Bool.noConfusion h⟩

/-- A terminated resize-wait loop ends on a non-zero observation. -/
theorem handleResizeObserve_nonzero (sizes : List Extent2D) (e : Extent2D)
    (h : handleResizeObserve sizes = some e) : e.width ≠ 0 ∧ e.height ≠ 0 := by
  induction sizes with
  | nil => simp [handleResizeObserve] at h
  | cons x xs ih =>
      unfold handleResizeObserve at h
      by_cases hx : x.width = 0 ∨ x.height = 0
      · rw [if_pos hx] at h
        exact ih h
      · rw [if_neg hx] at h
        have hxe := Option.some.inj h
        subst hxe
        push_neg at hx
        exact hx

/-! ## Claim theorems -/

/-- Claim C1: the frame scheduler cycles N = 2 slots by `k mod N`: the frame
index starts at 0, `BeginFrame` leaves the index unchanged and issues every
slot-indexed device call against the current index, every successful
`EndFrame` advances the index by exactly one modulo 2, and a failing
`EndFrame` (including a fatal present) leaves it unchanged. -/
theorem frame_scheduler_slot_cycling :
    maxFramesInFlight = 2 ∧
    (∀ n e f m r, (initialGraphicsState n e f m r).currentFrameIndex = 0) ∧
    (∀ env s, (beginFrame env s).2.1.currentFrameIndex = s.currentFrameIndex) ∧
    (∀ env s, traceSlotsOk (beginFrame env s).2.2 s.currentFrameIndex) ∧
    (∀ env s, (endFrame env s).1 = true →
      (endFrame env s).2.currentFrameIndex = (s.currentFrameIndex + 1) % maxFramesInFlight) ∧
    (∀ env s, (endFrame env s).1 = false →
      (endFrame env s).2.currentFrameIndex = s.currentFrameIndex) :=
  ⟨rfl, fun _ _ _ _ _ => rfl, beginFrame_state, beginFrame_trace,
   fun env s => (endFrame_index env s).1, fun env s => (endFrame_index env s).2⟩

/-- Witness for C1 at a concrete frame: a successful `EndFrame` from the
initial state advances the index from 0 to 1 = (0 + 1) % 2. -/
theorem frame_scheduler_slot_cycling_witness :
    (endFrame sampleEndEnvOk sampleState).2.currentFrameIndex =
      (sampleState.currentFrameIndex + 1) % maxFramesInFlight :=
  frame_scheduler_slot_cycling.2.2.2.2.1 sampleEndEnvOk sampleState (by decide)

/-- Claim C2: a tracked-image transition emits exactly one barrier when the
source and destination states differ and none when they are equal; after the
transition-and-record step of `RecordFrame` the tracker reads back the
destination state, so an immediately repeated transition to the same state
emits nothing. -/
theorem image_transition_barrier_policy (cmd cmd2 : List Barrier) (img : Nat)
    (a b : ImageLayout) (ss sa ds da am ss2 sa2 ds2 da2 am2 : Nat)
    (layouts : List ImageLayout) (i : Nat) (h : i < layouts.length) :
    (a ≠ b → (transitionImage cmd img a b ss sa ds da am).length = cmd.length + 1) ∧
    (a = b → transitionImage cmd img a b ss sa ds da am = cmd) ∧
    getSwapchainImageLayout (setSwapchainImageLayout layouts i b) i = b ∧
    transitionImage cmd2 img (getSwapchainImageLayout (setSwapchainImageLayout layouts i b) i)
      b ss2 sa2 ds2 da2 am2 = cmd2 := by
  have hget : getSwapchainImageLayout (setSwapchainImageLayout layouts i b) i = b := by
    unfold getSwapchainImageLayout setSwapchainImageLayout
    rw [if_pos h]
    exact layout_getD_set_self layouts i b h
  refine ⟨?_, ?_, hget, ?_⟩
  · intro hne
    unfold transitionImage
    rw [if_neg hne]
    simp
  · intro heq
    unfold transitionImage
    rw [if_pos heq]
  · unfold transitionImage
    rw [hget, if_pos rfl]

/-- Witness for C2 at a concrete image and states. -/
theorem image_transition_barrier_policy_witness :
    getSwapchainImageLayout
      (setSwapchainImageLayout (List.replicate 3 ImageLayout.undefined) 0
        ImageLayout.presentSrc) 0 = ImageLayout.presentSrc ∧
    transitionImage []  7
      (getSwapchainImageLayout
        (setSwapchainImageLayout (List.replicate 3 ImageLayout.undefined) 0
          ImageLayout.presentSrc) 0)
      ImageLayout.presentSrc 0 0 0 0 0 = [] := by
  have h := image_transition_barrier_policy [] [] 7 ImageLayout.undefined ImageLayout.presentSrc
    0 0 0 0 0 0 0 0 0 0 (List.replicate 3 ImageLayout.undefined) 0 (by decide)
  exact ⟨h.2.2.1, h.2.2.2⟩

/-- Claim C3: an out-of-date acquisition makes `BeginFrame` mark staleness
and fail for that frame without resetting or beginning the command buffer,
and the very next `BeginFrame` performs the rebuild at its top, before
acquiring again. -/
theorem beginFrame_out_of_date_retry (env env2 : BeginFrameEnv) (s : GraphicsState)
    (h1 : s.swapchainOutOfDate = false) (h2 : s.framebufferResized = false)
    (hw : env.waitFenceOk = true) (hr : env.resetFenceOk = true)
    (hacq : env.acquire = AcquireResult.outOfDate) :
    (beginFrame env s).1 = none ∧
    (beginFrame env s).2.1.swapchainOutOfDate = true ∧
    (∀ i, FrameAction.cbReset i ∉ (beginFrame env s).2.2 ∧
          FrameAction.cbBegan i ∉ (beginFrame env s).2.2) ∧
    (beginFrame env2 (beginFrame env s).2.1).2.2.head? = some FrameAction.recreated := by
  have hflag : ¬(s.swapchainOutOfDate = true ∨ s.framebufferResized = true) := by
    simp [h1, h2]
  have hbf : beginFrame env s = beginFrameBody env s [] := by
    unfold beginFrame
    rw [if_neg hflag]
  rw [hbf]
  have hbody := beginFrameBody_outOfDate_nil env s hw hr hacq
  refine ⟨hbody.1, hbody.2.1, ?_, ?_⟩
  · intro i
    rcases hbody.2.2 with ht | ht <;> rw [ht] <;> exact ⟨by simp, by simp⟩
  · exact beginFrame_stale_head env2 _ (Or.inl hbody.2.1)

/-- Witness for C3 at a concrete out-of-date acquisition. -/
theorem beginFrame_out_of_date_retry_witness :
    (beginFrame sampleBeginEnvOutOfDate sampleState).1 = none ∧
    (beginFrame sampleBeginEnvOutOfDate sampleState).2.1.swapchainOutOfDate = true ∧
    (beginFrame sampleBeginEnvOk
      (beginFrame sampleBeginEnvOutOfDate sampleState).2.1).2.2.head? =
        some FrameAction.recreated := by
  have h := beginFrame_out_of_date_retry sampleBeginEnvOutOfDate sampleBeginEnvOk sampleState
    (by decide) (by decide) (by decide) (by decide) (by decide)
  exact ⟨h.1, h.2.1, h.2.2.2⟩

/-- Claim C4: after every successful swapchain recreation, every tracked
extent-dependent layout (each swapchain image, the depth buffer, the HDR
target) is undefined and both staleness flags are cleared. -/
theorem recreate_resets_tracked_state (env : RecreateEnv) (s : GraphicsState)
    (h : (recreateSwapchain env s).1 = true) :
    (∀ l ∈ (recreateSwapchain env s).2.swapchainImageLayouts, l = ImageLayout.undefined) ∧
    (recreateSwapchain env s).2.depthImageLayout = ImageLayout.undefined ∧
    (recreateSwapchain env s).2.hdrImageLayout = ImageLayout.undefined ∧
    (recreateSwapchain env s).2.swapchainOutOfDate = false ∧
    (recreateSwapchain env s).2.framebufferResized = false := by
  have hf := recreateSwapchain_success_fields env s h
  refine ⟨?_, hf.2.1, hf.2.2.1, hf.2.2.2.1, hf.2.2.2.2.1⟩
  intro l hl
  rw [hf.1] at hl
  exact List.eq_of_mem_replicate hl

/-- Witness for C4 at a concrete successful recreation. -/
theorem recreate_resets_tracked_state_witness :
    (recreateSwapchain sampleRecreateEnv sampleState).2.depthImageLayout =
        ImageLayout.undefined ∧
    (recreateSwapchain sampleRecreateEnv sampleState).2.hdrImageLayout =
        ImageLayout.undefined ∧
    (recreateSwapchain sampleRecreateEnv sampleState).2.swapchainOutOfDate = false ∧
    (recreateSwapchain sampleRecreateEnv sampleState).2.framebufferResized = false := by
  have h := recreate_resets_tracked_state sampleRecreateEnv sampleState (by decide)
  exact ⟨h.2.1, h.2.2.1, h.2.2.2.1, h.2.2.2.2⟩

/-- Claim C5: swapchain creation prefers the gamma-correct SRGB surface
format and falls back to the first reported format when no preferred match
exists; prefers MAILBOX, then IMMEDIATE, then the always-available FIFO; and
requests `minImageCount + 1` images, clamped to `maxImageCount` when that
maximum is nonzero. -/
theorem swapchain_selection_policy (env : SwapchainEnv) (s : GraphicsState)
    (f0 : SurfaceFormat) (fs : List SurfaceFormat)
    (hf : env.formats = f0 :: fs) (h : (createSwapchain env s).1 = true) :
    ((∃ f ∈ env.formats, isSrgbPick f = true) →
      (createSwapchain env s).2.swapchainFormat = vkFormatB8G8R8A8Srgb) ∧
    ((∀ f ∈ env.formats, isSrgbPick f = false ∧ isUnormPick f = false) →
      (createSwapchain env s).2.swapchainFormat = f0.format) ∧
    (vkPresentModeMailbox ∈ env.presentModes →
      (createSwapchain env s).2.presentMode = vkPresentModeMailbox) ∧
    (vkPresentModeMailbox ∉ env.presentModes → vkPresentModeImmediate ∈ env.presentModes →
      (createSwapchain env s).2.presentMode = vkPresentModeImmediate) ∧
    (vkPresentModeMailbox ∉ env.presentModes → vkPresentModeImmediate ∉ env.presentModes →
      (createSwapchain env s).2.presentMode = vkPresentModeFifo) ∧
    (env.caps.maxImageCount = 0 →
      (createSwapchain env s).2.requestedImageCount = env.caps.minImageCount + 1) ∧
    (0 < env.caps.maxImageCount →
      (createSwapchain env s).2.requestedImageCount =
        min (env.caps.minImageCount + 1) env.caps.maxImageCount) := by
  have hfields := createSwapchain_success_fields env s h
  have hfmt := createSwapchain_success_format env s f0 fs hf h
  refine ⟨?_, ?_, ?_, ?_, ?_, ?_, ?_⟩
  · intro hex
    rw [hfmt]
    rw [hf] at hex
    exact isSrgbPick_format _ (chooseFormatLoop_srgb (f0 :: fs) f0 hex)
  · intro hall
    rw [hfmt]
    rw [hf] at hall
    rw [chooseFormatLoop_fallback (f0 :: fs) f0 hall]
  · intro hm
    rw [hfields.2.2.2.1]
    exact choosePresentModeLoop_mailbox env.presentModes vkPresentModeFifo hm
  · intro hnm hi
    rw [hfields.2.2.2.1]
    exact choosePresentModeLoop_immediate env.presentModes vkPresentModeFifo hnm hi
  · intro hnm hni
    rw [hfields.2.2.2.1]
    exact choosePresentModeLoop_neither env.presentModes vkPresentModeFifo hnm hni
  · intro h0
    rw [hfields.2.2.2.2]
    unfold chooseImageCount
    rw [h0]
    simp
  · intro hpos
    rw [hfields.2.2.2.2]
    unfold chooseImageCount
    dsimp only
    split
    · omega
    · omega

/-- Witness for C5 at a concrete surface configuration (SRGB reported second,
MAILBOX reported last, max image count 8). -/
theorem swapchain_selection_policy_witness :
    (createSwapchain sampleSwapEnv sampleState).2.swapchainFormat = vkFormatB8G8R8A8Srgb ∧
    (createSwapchain sampleSwapEnv sampleState).2.presentMode = vkPresentModeMailbox ∧
    (createSwapchain sampleSwapEnv sampleState).2.requestedImageCount =
      min (sampleSwapEnv.caps.minImageCount + 1) sampleSwapEnv.caps.maxImageCount := by
  have h := swapchain_selection_policy sampleSwapEnv sampleState
    { format := vkFormatB8G8R8A8Unorm, colorSpace := vkColorSpaceSrgbNonlinear }
    [{ format := vkFormatB8G8R8A8Srgb, colorSpace := vkColorSpaceSrgbNonlinear }]
    (by rfl) (by decide)
  exact ⟨h.1 (by decide), h.2.2.1 (by decide), h.2.2.2.2.2.2 (by decide)⟩

/-- Claim C6: shader compilation fails when the module cannot be loaded, the
entry point is missing, composition or linking fails, or the emitted bytecode
is empty; a magic-header mismatch is logged as an error but compilation still
succeeds and the shader object is still created from that bytecode. -/
theorem shader_compile_failure_policy (inp : CompileInput) :
    (inp.moduleLoads = false → compileToSpirv inp = none) ∧
    (inp.entryPointFound = false → compileToSpirv inp = none) ∧
    (inp.composeOk = false → compileToSpirv inp = none) ∧
    (inp.linkOk = false → compileToSpirv inp = none) ∧
    (inp.emittedWords = [] → compileToSpirv inp = none) ∧
    (inp.sessionValid = true → inp.moduleNameNonEmpty = true → inp.moduleLoads = true →
     inp.entryPointFound = true → inp.composeOk = true → inp.linkOk = true →
     inp.emitOk = true → 5 ≤ inp.emittedWords.length →
     inp.emittedWords.headD 0 ≠ kSpirvMagic →
       compileToSpirv inp = some { spirv := inp.emittedWords, magicMismatchLogged := true } ∧
       createShaderObject inp true = some inp.emittedWords) := by
  refine ⟨?_, ?_, ?_, ?_, ?_, ?_⟩
  · intro h
    simp [compileToSpirv, h]
  · intro h
    simp [compileToSpirv, h]
  · intro h
    simp [compileToSpirv, h]
  · intro h
    simp [compileToSpirv, h]
  · intro h
    simp [compileToSpirv, h]
  · intro h1 h2 h3 h4 h5 h6 h7 hlen hmagic
    have hres : compileToSpirv inp =
        some { spirv := inp.emittedWords, magicMismatchLogged := true } := by
      unfold compileToSpirv
      rw [if_neg (by simp [h1]), if_neg (by simp [h2]), if_neg (by simp [h3]),
          if_neg (by simp [h4]), if_neg (by simp [h5]), if_neg (by simp [h6]),
          if_neg (by simp [h7]), if_neg (by omega), if_neg (by omega)]
      have hb : (inp.emittedWords.headD 0 != kSpirvMagic) = true := by
        simp only [bne_iff_ne, ne_eq]
        exact hmagic
      rw [hb]
    refine ⟨hres, ?_⟩
    unfold createShaderObject
    rw [hres]
    simp


/-- Witness for C6: a bytecode of five words starting with 1 (not the magic
header) still compiles successfully with the mismatch logged, and the shader
object is created from exactly those words. -/
theorem shader_compile_failure_policy_witness :
    compileToSpirv badMagicInput =
      some { spirv := [1, 2, 3, 4, 5], magicMismatchLogged := true } ∧
    createShaderObject badMagicInput true = some [1, 2, 3, 4, 5] :=
  (shader_compile_failure_policy badMagicInput).2.2.2.2.2
    (by decide) (by decide) (by decide) (by decide) (by decide) (by decide)
    (by decide) (by decide) (by decide)

/-- Claim C7: the bindless table is created exactly once (a single
`CreateBindlessDescriptors` step in `Initialize`, one pool with `maxSets = 1`)
with five bindings of fixed capacities 16384/128/1024/256/512 for sampled
images, samplers, storage buffers, uniform buffers and storage images; every
binding carries update-after-bind and partially-bound, and only the
sampled-image binding additionally carries variable-descriptor-count. -/
theorem bindless_table_shape :
    setupSteps.count SetupStep.createBindlessDescriptors = 1 ∧
    bindlessPoolMaxSets = 1 ∧
    bindlessBindings.length = 5 ∧
    bindlessBindings.map DescriptorBinding.descriptorCount = [16384, 128, 1024, 256, 512] ∧
    bindlessBindings.map DescriptorBinding.descriptorType =
      [vkDescriptorTypeSampledImage, vkDescriptorTypeSampler, vkDescriptorTypeStorageBuffer,
       vkDescriptorTypeUniformBuffer, vkDescriptorTypeStorageImage] ∧
    (∀ b ∈ bindlessBindings, b.flags.updateAfterBind = true ∧ b.flags.partlyBound = true) ∧
    (∀ b ∈ bindlessBindings,
      (b.flags.variableCount = true ↔ b.descriptorType = vkDescriptorTypeSampledImage)) :=
  ⟨by decide, rfl, rfl, rfl, rfl, by decide, by decide⟩

/-- Witness for C7 at the sampled-image binding. -/
theorem bindless_table_shape_witness :
    ({ binding := 0, descriptorType := vkDescriptorTypeSampledImage, descriptorCount := 16384,
       flags := { updateAfterBind := true, partlyBound := true, variableCount := true } }
      : DescriptorBinding).flags.updateAfterBind = true :=
  (bindless_table_shape.2.2.2.2.2.1
    { binding := 0, descriptorType := vkDescriptorTypeSampledImage, descriptorCount := 16384,
      flags := { updateAfterBind := true, partlyBound := true, variableCount := true } }
    (by decide)).1

/-- Counterexample to claim C8 as stated: `SetSwapchainImageLayout` with an
out-of-range index (5, on a two-image chain) silently leaves the tracker
unchanged — the accessor has no failure channel, nothing is logged and no
frame is abandoned — whereas the spec's failure semantics (modelled by
`setSwapchainImageLayoutSpec`) demand a reported failure there. -/
theorem tracked_image_invalid_use_counterexample :
    setSwapchainImageLayout (List.replicate 2 ImageLayout.presentSrc) 5
        ImageLayout.transferDstOptimal = List.replicate 2 ImageLayout.presentSrc ∧
    setSwapchainImageLayoutSpec (List.replicate 2 ImageLayout.presentSrc) 5
        ImageLayout.transferDstOptimal = none := by
  decide

/-- Claim C8 (amended): invalid tracked-image uses are rejected with a logged
error and frame abandonment in `RecordSwapchainClear` — a null command
buffer, an out-of-range image index, or a null (destroyed) image handle each
return failure and change nothing — but the raw layout-tracking accessors
silently tolerate out-of-range indices: `SetSwapchainImageLayout` is a no-op
and `GetSwapchainImageLayout` returns undefined. -/
theorem tracked_image_invalid_use_policy (cmdValid : Bool) (idx : Nat)
    (imageNullAt : Nat → Bool) (s : GraphicsState) (l : List ImageLayout) (x : ImageLayout) :
    (cmdValid = false → recordSwapchainClear cmdValid idx imageNullAt s = (false, s)) ∧
    (s.swapchainImageLayouts.length ≤ idx →
      recordSwapchainClear cmdValid idx imageNullAt s = (false, s)) ∧
    (imageNullAt idx = true →
      recordSwapchainClear cmdValid idx imageNullAt s = (false, s)) ∧
    (l.length ≤ idx → setSwapchainImageLayout l idx x = l) ∧
    (l.length ≤ idx → getSwapchainImageLayout l idx = ImageLayout.undefined) := by
  refine ⟨?_, ?_, ?_, ?_, ?_⟩
  · intro h
    unfold recordSwapchainClear
    rw [if_pos h]
  · intro h
    unfold recordSwapchainClear
    by_cases hc : cmdValid = false
    · rw [if_pos hc]
    · rw [if_neg hc, if_pos h]
  · intro h
    unfold recordSwapchainClear
    by_cases hc : cmdValid = false
    · rw [if_pos hc]
    · rw [if_neg hc]
      by_cases ho : s.swapchainImageLayouts.length ≤ idx
      · rw [if_pos ho]
      · rw [if_neg ho, if_pos h]
  · intro h
    unfold setSwapchainImageLayout
    rw [if_neg (by omega)]
  · intro h
    unfold getSwapchainImageLayout
    rw [List.getD_eq_default]
    exact h

/-- Witness for C8 (amended) at concrete out-of-range uses. -/
theorem tracked_image_invalid_use_policy_witness :
    recordSwapchainClear true 5 (fun _ => false) sampleState = (false, sampleState) ∧
    setSwapchainImageLayout (List.replicate 2 ImageLayout.presentSrc) 7 ImageLayout.general
      = List.replicate 2 ImageLayout.presentSrc := by
  have h := tracked_image_invalid_use_policy true 5 (fun _ => false) sampleState
    (List.replicate 2 ImageLayout.presentSrc) ImageLayout.general
  exact ⟨h.2.1 (by decide), h.2.2.2.1 (by decide)⟩

/-- Counterexample to claim C9 as stated: with the surface reporting zero
`currentExtent` (a minimized window, e.g. after an out-of-date present marked
staleness) the rebuild succeeds immediately and builds a chain with extent
0×0 — no wait for a non-zero extent happens anywhere on the rebuild path. -/
theorem zero_extent_rebuild_counterexample :
    (recreateSwapchain zeroExtentRecreateEnv sampleState).1 = true ∧
    (recreateSwapchain zeroExtentRecreateEnv sampleState).2.swapchainExtent =
      { width := 0, height := 0 } := by
  decide

/-- Claim C9 (amended): the blocking wait for a non-zero extent happens only
in the resize handler `HandleResize`, which re-polls the window size until it
is non-zero before marking staleness; the rebuild itself
(`RecreateSwapchain`/`CreateSwapchain`) performs no such wait and adopts
whatever extent the surface reports at rebuild time, zero included. -/
theorem minimize_wait_only_in_resize_handler (sizes : List Extent2D)
    (s s' : GraphicsState) (h : handleResize sizes s = some s') :
    (∃ e, handleResizeObserve sizes = some e ∧ e.width ≠ 0 ∧ e.height ≠ 0) ∧
    s'.framebufferResized = true ∧ s'.swapchainOutOfDate = true ∧
    (∀ env t, (recreateSwapchain env t).1 = true →
      (recreateSwapchain env t).2.swapchainExtent =
        chooseSwapExtent env.swapEnv.caps env.swapEnv.windowSize) := by
  unfold handleResize at h
  rcases ho : handleResizeObserve sizes with _ | e
  · rw [ho] at h
    cases h
  · rw [ho] at h
    have he := handleResizeObserve_nonzero sizes e ho
    have hs := Option.some.inj h
    refine ⟨⟨e, rfl, he.1, he.2⟩, ?_, ?_, ?_⟩
    · rw [← hs]
    · rw [← hs]
    · intro env t ht
      exact (recreateSwapchain_success_fields env t ht).2.2.2.2.2

/-- Witness for C9 (amended): after observing 0×0 and then 800×600, the
resize handler completes and marks both staleness flags. -/
theorem minimize_wait_only_in_resize_handler_witness :
    ({ sampleState with framebufferResized := true, swapchainOutOfDate := true }
      : GraphicsState).framebufferResized = true ∧
    ({ sampleState with framebufferResized := true, swapchainOutOfDate := true }
      : GraphicsState).swapchainOutOfDate = true := by
  have h := minimize_wait_only_in_resize_handler
    [{ width := 0, height := 0 }, { width := 800, height := 600 }]
    sampleState
    { sampleState with framebufferResized := true, swapchainOutOfDate := true }
    (by decide)
  exact ⟨h.2.1, h.2.2.1⟩

/-- Claim C10: a `BeginFrame` that passes its wait step (fence waited on and
reset) and then fails at image acquisition returns failure with the slot's
fence already reset to the pending (unsignaled) state, and does not restore
it to the satisfied state on that error path. -/
theorem acquire_failure_leaves_fence_pending (env : BeginFrameEnv) (s : GraphicsState)
    (hidx : s.currentFrameIndex < s.frames.length)
    (hfp : (s.frames.getD s.currentFrameIndex defaultFrameSlot).fencePresent = true)
    (hpass : (s.swapchainOutOfDate = false ∧ s.framebufferResized = false) ∨
             (recreateSwapchain env.recreate s).1 = true)
    (hw : env.waitFenceOk = true) (hr : env.resetFenceOk = true)
    (hacq : env.acquire = AcquireResult.outOfDate ∨ env.acquire = AcquireResult.errOther) :
    (beginFrame env s).1 = none ∧
    slotFenceSignaled (beginFrame env s).2.1 s.currentFrameIndex = false := by
  unfold beginFrame
  by_cases hflag : s.swapchainOutOfDate = true ∨ s.framebufferResized = true
  · rw [if_pos hflag]
    have hrec : (recreateSwapchain env.recreate s).1 = true := by
      rcases hpass with ⟨hp1, hp2⟩ | hp
      · exfalso
        rcases hflag with hf | hf
        · rw [hp1] at hf
          exact Bool.noConfusion hf
        · rw [hp2] at hf
          exact Bool.noConfusion hf
      · exact hp
    rcases hrc : recreateSwapchain env.recreate s with ⟨b, s1⟩
    rw [hrc] at hrec
    cases b with
    | false => exact Bool.noConfusion hrec
    | true =>
        have hp := recreateSwapchain_preserves env.recreate s
        rw [hrc] at hp
        have hidx1 : s1.currentFrameIndex < s1.frames.length := by
          rw [hp.1, hp.2]
          exact hidx
        have hfp1 : (s1.frames.getD s1.currentFrameIndex defaultFrameSlot).fencePresent
            = true := by
          rw [hp.1, hp.2]
          exact hfp
        have hb := beginFrameBody_fence_pending env s1 [FrameAction.recreated]
          hidx1 hfp1 hw hr hacq
        rw [hp.1] at hb
        exact hb
  · rw [if_neg hflag]
    exact beginFrameBody_fence_pending env s [] hidx hfp hw hr hacq

/-- Witness for C10 at a concrete out-of-date acquisition from the initial
state: the call fails and slot 0's fence is left unsignaled. -/
theorem acquire_failure_leaves_fence_pending_witness :
    (beginFrame sampleBeginEnvOutOfDate sampleState).1 = none ∧
    slotFenceSignaled (beginFrame sampleBeginEnvOutOfDate sampleState).2.1
      sampleState.currentFrameIndex = false :=
  acquire_failure_leaves_fence_pending sampleBeginEnvOutOfDate sampleState
    (by decide) (by decide) (Or.inl ⟨by decide, by decide⟩) (by decide) (by decide)
    (Or.inl (by decide))
